import Mathlib

set_option autoImplicit false

/-!
Shallow embedding of `gempy/plot/visualization_2d.py` (class `PlotData2D`)
and verification of its specified properties.

Python methods that can raise are embedded as functions into `PyResult`;
numpy arrays are embedded as (nested) lists of rationals; the model object
is a record of the fields the module reads.
-/

/-- Outcome of running a Python method: a normal return value or a raised
error (`AttributeError`, `UnboundLocalError`, `AssertionError`). -/
inductive PyResult (α : Type) where
  | ok : α → PyResult α
  | attributeError : String → PyResult α
  | unboundLocalError : String → PyResult α
  | assertionError : String → PyResult α
deriving Repr, DecidableEq

/-- `true` exactly when the result is a raised `AttributeError`
(the error used by the code for an invalid direction argument). -/
def PyResult.isAttributeError {α : Type} : PyResult α → Bool
  | .attributeError _ => true
  | _ => false

/-- `true` exactly when the result is a normal return. -/
def PyResult.isOk {α : Type} : PyResult α → Bool
  | .ok _ => true
  | _ => false

/-- The grid of the external model: `resolution` (3 cell counts),
`extent` (6 bounds, xmin xmax ymin ymax zmin zmax), and the flattened
cell-center coordinates `values` (one row of 3 coordinates per cell). -/
structure Grid where
  resolution : Fin 3 → Nat
  extent : Fin 6 → ℚ
  values : List (List ℚ)

/-- Precomputed solution arrays of the external model. -/
structure Solutions where
  lith_block : List ℚ
  fault_blocks : List ℚ
  scalar_field_matrix : List (List ℚ)

/-- The external geological model object, restricted to the fields this
module reads: grid geometry, the surfaces table (rows of surface name and
color), tabular point and orientation data, and solution arrays. -/
structure Model where
  grid : Grid
  surfaces : List (String × String)
  surface_points : List (List ℚ)
  orientations : List (List ℚ)
  solutions : Solutions

/-- A numpy index along one axis: a fixed cell index, a bounded slice
`slice(lo, hi)`, or the full slice `:`. -/
inductive NpIndex where
  | cell : Nat → NpIndex
  | slice : Nat → Nat → NpIndex
  | all : NpIndex
deriving Repr, DecidableEq

/-- The 8-tuple returned by `PlotData2D._slice`: three per-axis indices,
the 4-element extent selection, the two axis labels and the two
gradient-component labels. -/
structure SliceDescr where
  a : NpIndex
  b : NpIndex
  c : NpIndex
  extent_val : List ℚ
  x : String
  y : String
  Gx : String
  Gy : String
deriving Repr, DecidableEq

namespace PlotData2D

/-- Embeds `PlotData2D._slice` (visualization_2d.py lines 181-212):
keeps full slices on the two free axes, fixes `cell_number` on the sliced
axis, and picks the extent subset and the axis/gradient labels; any other
direction raises `AttributeError`. -/
def _slice (model : Model) (direction : String) (cell_number : Nat) :
    PyResult SliceDescr :=
  let a0 : NpIndex := .slice 0 (model.grid.resolution 0)
  let b0 : NpIndex := .slice 0 (model.grid.resolution 1)
  let c0 : NpIndex := .slice 0 (model.grid.resolution 2)
  if direction = "x" then
    .ok ⟨.cell cell_number, b0, c0,
      [model.grid.extent 2, model.grid.extent 3,
       model.grid.extent 4, model.grid.extent 5],
      "Y", "Z", "G_y", "G_z"⟩
  else if direction = "y" then
    .ok ⟨a0, .cell cell_number, c0,
      [model.grid.extent 0, model.grid.extent 1,
       model.grid.extent 4, model.grid.extent 5],
      "X", "Z", "G_x", "G_z"⟩
  else if direction = "z" then
    .ok ⟨a0, b0, .cell cell_number,
      [model.grid.extent 1, model.grid.extent 2,
       model.grid.extent 3, model.grid.extent 4],
      "X", "Y", "G_x", "G_y"⟩
  else
    .attributeError (direction ++ "must be a cartesian direction, i.e. xyz")

/-- Embeds `PlotData2D._slice2D` (lines 214-226).  In the source the
`else` branch only prints `not a direction`; the following
`return _slice, extent` then reads the never-assigned locals, which in
Python raises `UnboundLocalError`. -/
def _slice2D (model : Model) (cell_number : Nat) (direction : String) :
    PyResult ((NpIndex × NpIndex × NpIndex) × List ℚ) :=
  if direction = "x" then
    .ok ((.cell cell_number, .all, .all),
      [model.grid.extent 2, model.grid.extent 3,
       model.grid.extent 4, model.grid.extent 5])
  else if direction = "y" then
    .ok ((.all, .cell cell_number, .all),
      [model.grid.extent 0, model.grid.extent 1,
       model.grid.extent 4, model.grid.extent 5])
  else if direction = "z" then
    .ok ((.all, .all, .cell cell_number),
      [model.grid.extent 1, model.grid.extent 2,
       model.grid.extent 3, model.grid.extent 4])
  else
    .unboundLocalError "_slice"

end PlotData2D

/-- A small concrete grid used to evaluate the embedding:
resolution (2, 3, 4), extent (0, 10, 20, 30, 40, 50). -/
def testGrid : Grid where
  resolution := ![2, 3, 4]
  extent := ![0, 10, 20, 30, 40, 50]
  values := []

/-- A small concrete model built on `testGrid`, with two surfaces. -/
def testModel : Model where
  grid := testGrid
  surfaces := [("rock1", "015482"), ("basement", "9f0052")]
  surface_points := []
  orientations := []
  solutions := ⟨[], [], []⟩

/-- C1: evaluation at the failing input.  For directions "x" and "y" the
slice selector returns the extent bounds of the two free axes, but for
direction "z" (free axes x and y) it returns extent indices 1..4
(xmax, ymin, ymax, zmin) instead of the x and y bounds (indices 0..3). -/
theorem c1_slice_z_extent_mismatch :
    PlotData2D._slice testModel "x" 1 =
      .ok ⟨.cell 1, .slice 0 3, .slice 0 4, [20, 30, 40, 50],
        "Y", "Z", "G_y", "G_z"⟩
    ∧ PlotData2D._slice testModel "y" 1 =
      .ok ⟨.slice 0 2, .cell 1, .slice 0 4, [0, 10, 40, 50],
        "X", "Z", "G_x", "G_z"⟩
    ∧ PlotData2D._slice testModel "z" 1 =
      .ok ⟨.slice 0 2, .slice 0 3, .cell 1, [10, 20, 30, 40],
        "X", "Y", "G_x", "G_y"⟩
    ∧ ([10, 20, 30, 40] : List ℚ) ≠ [0, 10, 20, 30] := by
  refine ⟨?_, ?_, ?_, ?_⟩ <;> decide

/-- C2 counterexample: at the concrete invalid direction "foo",
`_slice2D` does not raise an invalid-argument (`AttributeError`) failure
as the claim states: it fails with `UnboundLocalError` instead. -/
theorem c2_slice2D_no_attribute_error :
    (PlotData2D._slice2D testModel 0 "foo").isAttributeError = false := by
  decide

/-- C2 (amended): for every direction other than "x", "y", "z", `_slice`
raises an invalid-argument `AttributeError`, while `_slice2D` prints a
message and then fails with an `UnboundLocalError`; neither returns a
slice descriptor, and neither silently defaults to an axis. -/
theorem c2_invalid_direction_errors (model : Model) (direction : String)
    (cn : Nat) (hx : direction ≠ "x") (hy : direction ≠ "y")
    (hz : direction ≠ "z") :
    PlotData2D._slice model direction cn =
      .attributeError (direction ++ "must be a cartesian direction, i.e. xyz")
    ∧ PlotData2D._slice2D model cn direction = .unboundLocalError "_slice" := by
  constructor <;> simp [PlotData2D._slice, PlotData2D._slice2D, hx, hy, hz]

/-- C2 witness: the amended theorem applied at direction "foo". -/
theorem c2_invalid_direction_errors_witness :
    PlotData2D._slice testModel "foo" 0 =
      .attributeError ("foo" ++ "must be a cartesian direction, i.e. xyz")
    ∧ PlotData2D._slice2D testModel 0 "foo" = .unboundLocalError "_slice" :=
  c2_invalid_direction_errors testModel "foo" 0 (by decide) (by decide)
    (by decide)

/-- Row-major split of a flat list into `r` rows of `c` elements each
(rows past the data, or cut short by it, simply come out short). -/
def chunkRows {α : Type} (r c : Nat) (xs : List α) : List (List α) :=
  (List.range r).map (fun i => (xs.drop (i * c)).take c)

/-- numpy `reshape(r0, r1, r2)` of a flat row-major array. -/
def reshape3 {α : Type} (r0 r1 r2 : Nat) (xs : List α) :
    List (List (List α)) :=
  (chunkRows r0 (r1 * r2) xs).map (chunkRows r1 r2)

/-- Application of one `NpIndex` to one axis of a (nested) list. -/
def npSlice1 {α : Type} : NpIndex → List α → List α
  | .all, xs => xs
  | .slice lo hi, xs => (xs.drop lo).take (hi - lo)
  | .cell n, xs => (xs.drop n).take 1

/-- numpy indexing `A[ia, ib, ic]` of a 3D array with exactly one
fixed-cell index, producing a 2D array. -/
def npGet3 {α : Type} [Inhabited α] (A : List (List (List α))) :
    NpIndex → NpIndex → NpIndex → List (List α)
  | .cell n, ib, ic =>
      (npSlice1 ib (A.getD n [])).map (fun row => npSlice1 ic row)
  | ia, .cell n, ic =>
      (npSlice1 ia A).map (fun plane => npSlice1 ic (plane.getD n []))
  | ia, ib, .cell n =>
      (npSlice1 ia A).map (fun plane =>
        (npSlice1 ib plane).map (fun row => row.getD n default))
  | _, _, _ => []

/-- Embeds the array selection of `PlotData2D.plot_block_section`
(lines 288-306): reshape the flat block to the grid resolution and apply
the three indices produced by `_slice`.  (`plot_scalar_field`, lines
358-370, slices its array the same way.) -/
def PlotData2D.plot_block_array (model : Model) (arr : List ℚ)
    (direction : String) (cell_number : Nat) : PyResult (List (List ℚ)) :=
  match PlotData2D._slice model direction cell_number with
  | .ok d =>
      .ok (npGet3 (reshape3 (model.grid.resolution 0)
        (model.grid.resolution 1) (model.grid.resolution 2) arr) d.a d.b d.c)
  | .attributeError s => .attributeError s
  | .unboundLocalError s => .unboundLocalError s
  | .assertionError s => .assertionError s

lemma getD_map_of_lt {α β : Type} (f : α → β) (l : List α) (i : Nat)
    (d : β) (d2 : α) (h : i < l.length) :
    (l.map f).getD i d = f (l.getD i d2) := by
  rw [List.getD_eq_getElem _ _ (by simpa using h), List.getElem_map,
    List.getD_eq_getElem _ _ h]

lemma getD_mem_of_lt {α : Type} (l : List α) (i : Nat) (d : α)
    (h : i < l.length) : l.getD i d ∈ l := by
  rw [List.getD_eq_getElem _ _ h]
  exact List.getElem_mem h

lemma chunkRows_length {α : Type} (r c : Nat) (xs : List α) :
    (chunkRows r c xs).length = r := by
  simp [chunkRows]

lemma chunkRows_row_length {α : Type} {r c : Nat} {xs : List α}
    (h : r * c ≤ xs.length) :
    ∀ row ∈ chunkRows r c xs, row.length = c := by
  intro row hrow
  rw [chunkRows, List.mem_map] at hrow
  obtain ⟨i, hi, rfl⟩ := hrow
  rw [List.mem_range] at hi
  have hic : i * c + c ≤ r * c := by
    calc i * c + c = (i + 1) * c := by ring
    _ ≤ r * c := Nat.mul_le_mul_right c hi
  simp only [List.length_take, List.length_drop]
  omega

lemma chunkRows_getD {α : Type} {r : Nat} (c : Nat) (xs : List α) {i : Nat}
    (hi : i < r) : (chunkRows r c xs).getD i [] = (xs.drop (i * c)).take c := by
  rw [chunkRows, getD_map_of_lt _ _ _ _ 0 (by simpa using hi)]
  rw [List.getD_eq_getElem _ _ (by simpa using hi), List.getElem_range]

lemma reshape3_length {α : Type} (r0 r1 r2 : Nat) (xs : List α) :
    (reshape3 r0 r1 r2 xs).length = r0 := by
  simp [reshape3, chunkRows]

lemma reshape3_plane_length {α : Type} (r0 r1 r2 : Nat) (xs : List α) :
    ∀ p ∈ reshape3 r0 r1 r2 xs, p.length = r1 := by
  intro p hp
  rw [reshape3, List.mem_map] at hp
  obtain ⟨chunk, _, rfl⟩ := hp
  exact chunkRows_length r1 r2 chunk

lemma reshape3_row_length {α : Type} {r0 r1 r2 : Nat} {xs : List α}
    (h : r0 * (r1 * r2) ≤ xs.length) :
    ∀ p ∈ reshape3 r0 r1 r2 xs, ∀ row ∈ p, row.length = r2 := by
  intro p hp
  rw [reshape3, List.mem_map] at hp
  obtain ⟨chunk, hchunk, rfl⟩ := hp
  have hclen : chunk.length = r1 * r2 := chunkRows_row_length h chunk hchunk
  exact chunkRows_row_length (le_of_eq hclen.symm)

lemma chunk_at_cell_full {α : Type} {r0 rc : Nat} {xs : List α} {cn : Nat}
    (hlen : r0 * rc ≤ xs.length) (hcn : cn < r0) :
    ((xs.drop (cn * rc)).take rc).length = rc := by
  have h1 : cn * rc + rc ≤ r0 * rc := by
    calc cn * rc + rc = (cn + 1) * rc := by ring
    _ ≤ r0 * rc := Nat.mul_le_mul_right rc hcn
  simp only [List.length_take, List.length_drop]
  omega

/-- C3: for a flat array of length R0*R1*R2 reshaped to the grid
resolution, slicing at an in-range cell index along each of the three
directions yields a 2D array whose two dimensions are exactly the
resolutions of the two free axes. -/
theorem c3_reshaped_slice_shape (model : Model) (arr : List ℚ) (cn : Nat)
    (hlen : arr.length = model.grid.resolution 0 * model.grid.resolution 1 *
      model.grid.resolution 2) :
    (cn < model.grid.resolution 0 →
      ∃ m, PlotData2D.plot_block_array model arr "x" cn = .ok m ∧
        m.length = model.grid.resolution 1 ∧
        ∀ row ∈ m, row.length = model.grid.resolution 2) ∧
    (cn < model.grid.resolution 1 →
      ∃ m, PlotData2D.plot_block_array model arr "y" cn = .ok m ∧
        m.length = model.grid.resolution 0 ∧
        ∀ row ∈ m, row.length = model.grid.resolution 2) ∧
    (cn < model.grid.resolution 2 →
      ∃ m, PlotData2D.plot_block_array model arr "z" cn = .ok m ∧
        m.length = model.grid.resolution 0 ∧
        ∀ row ∈ m, row.length = model.grid.resolution 1) := by
  have hlen2 : model.grid.resolution 0 *
      (model.grid.resolution 1 * model.grid.resolution 2) ≤ arr.length := by
    rw [hlen, ← Nat.mul_assoc]
  refine ⟨fun hcn => ?_, fun hcn => ?_, fun hcn => ?_⟩
  · -- direction "x": fix axis 0, free axes 1 and 2
    have hx : PlotData2D.plot_block_array model arr "x" cn =
        .ok ((((reshape3 (model.grid.resolution 0) (model.grid.resolution 1)
          (model.grid.resolution 2) arr).getD cn []).take
            (model.grid.resolution 1)).map
          (fun row => row.take (model.grid.resolution 2))) := rfl
    have hgd : (reshape3 (model.grid.resolution 0) (model.grid.resolution 1)
        (model.grid.resolution 2) arr).getD cn [] =
        chunkRows (model.grid.resolution 1) (model.grid.resolution 2)
          ((arr.drop (cn * (model.grid.resolution 1 *
            model.grid.resolution 2))).take
            (model.grid.resolution 1 * model.grid.resolution 2)) := by
      rw [reshape3, getD_map_of_lt _ _ _ _ []
        (by rw [chunkRows_length]; exact hcn), chunkRows_getD _ _ hcn]
    rw [hgd] at hx
    have hQlen := chunk_at_cell_full hlen2 hcn
    have hPlen : (chunkRows (model.grid.resolution 1)
        (model.grid.resolution 2)
        ((arr.drop (cn * (model.grid.resolution 1 *
          model.grid.resolution 2))).take
          (model.grid.resolution 1 * model.grid.resolution 2))).length =
        model.grid.resolution 1 := chunkRows_length _ _ _
    have hProws := chunkRows_row_length (le_of_eq hQlen.symm)
    have hPt := List.take_of_length_le (le_of_eq hPlen)
    rw [hPt] at hx
    refine ⟨_, hx, ?_, ?_⟩
    · rw [List.length_map, hPlen]
    · intro row hrow
      rw [List.mem_map] at hrow
      obtain ⟨row0, hrow0, rfl⟩ := hrow
      rw [List.length_take, hProws row0 hrow0]
      exact Nat.min_self _
  · -- direction "y": fix axis 1, free axes 0 and 2
    have hy : PlotData2D.plot_block_array model arr "y" cn =
        .ok (((reshape3 (model.grid.resolution 0) (model.grid.resolution 1)
          (model.grid.resolution 2) arr).take (model.grid.resolution 0)).map
          (fun plane => (plane.getD cn []).take (model.grid.resolution 2))) :=
      rfl
    have hAlen := reshape3_length (model.grid.resolution 0)
      (model.grid.resolution 1) (model.grid.resolution 2) arr
    rw [List.take_of_length_le (le_of_eq hAlen)] at hy
    refine ⟨_, hy, ?_, ?_⟩
    · rw [List.length_map, hAlen]
    · intro row hrow
      rw [List.mem_map] at hrow
      obtain ⟨plane, hplane, rfl⟩ := hrow
      have hprow : plane.getD cn [] ∈ plane :=
        getD_mem_of_lt _ _ _ (by
          rw [reshape3_plane_length _ _ _ _ plane hplane]; exact hcn)
      rw [List.length_take,
        reshape3_row_length hlen2 plane hplane _ hprow]
      exact Nat.min_self _
  · -- direction "z": fix axis 2, free axes 0 and 1
    have hz : PlotData2D.plot_block_array model arr "z" cn =
        .ok (((reshape3 (model.grid.resolution 0) (model.grid.resolution 1)
          (model.grid.resolution 2) arr).take (model.grid.resolution 0)).map
          (fun plane => (plane.take (model.grid.resolution 1)).map
            (fun row => row.getD cn default))) := rfl
    have hAlen := reshape3_length (model.grid.resolution 0)
      (model.grid.resolution 1) (model.grid.resolution 2) arr
    rw [List.take_of_length_le (le_of_eq hAlen)] at hz
    refine ⟨_, hz, ?_, ?_⟩
    · rw [List.length_map, hAlen]
    · intro row hrow
      rw [List.mem_map] at hrow
      obtain ⟨plane, hplane, rfl⟩ := hrow
      rw [List.length_map, List.length_take,
        reshape3_plane_length _ _ _ _ plane hplane]
      exact Nat.min_self _

/-- C3 witness: the shape theorem applied to a concrete flat array of
length 2*3*4 on `testModel`, direction "y", cell index 1. -/
theorem c3_reshaped_slice_shape_witness :
    ∃ m, PlotData2D.plot_block_array testModel
        ((List.range 24).map (fun n => (n : ℚ))) "y" 1 = .ok m ∧
      m.length = testModel.grid.resolution 0 ∧
      ∀ row ∈ m, row.length = testModel.grid.resolution 2 :=
  (c3_reshaped_slice_shape testModel ((List.range 24).map (fun n => (n : ℚ)))
    1 (by decide)).2.1 (by decide)

/-- Python dict insertion: if the key is already present, update its
value in place; otherwise append the pair at the end. -/
def dictInsert (d : List (String × String)) (k v : String) :
    List (String × String) :=
  if d.any (fun p => p.1 == k) then
    d.map (fun p => if p.1 == k then (p.1, v) else p)
  else d ++ [(k, v)]

/-- `dict(zip(keys, vals))` over paired rows: fold the pairs into a
Python dict (insertion order kept, later values win). -/
def dictOfPairs (ps : List (String × String)) : List (String × String) :=
  ps.foldl (fun d p => dictInsert d p.1 p.2) []

/-- Embeds line 63 of `PlotData2D.__init__`:
`self._color_lot = dict(zip(model.surfaces.df['surface'], model.surfaces.df['color']))`. -/
def PlotData2D.color_lot (model : Model) : List (String × String) :=
  dictOfPairs model.surfaces

lemma dictInsert_of_not_mem {d : List (String × String)} {k : String}
    (v : String) (h : k ∉ d.map Prod.fst) :
    dictInsert d k v = d ++ [(k, v)] := by
  have hany : d.any (fun p => p.1 == k) = false := by
    rw [List.any_eq_false]
    intro p hp
    simp only [beq_iff_eq]
    intro hpk
    exact h (List.mem_map.mpr ⟨p, hp, hpk⟩)
  rw [dictInsert, if_neg (by simp [hany])]

lemma dictInsert_fst_of_mem {d : List (String × String)} {k : String}
    (v : String) (h : k ∈ d.map Prod.fst) :
    (dictInsert d k v).map Prod.fst = d.map Prod.fst := by
  have hany : d.any (fun p => p.1 == k) = true := by
    rw [List.any_eq_true]
    rw [List.mem_map] at h
    obtain ⟨p, hp, rfl⟩ := h
    exact ⟨p, hp, by simp⟩
  rw [dictInsert, if_pos hany, List.map_map]
  apply List.map_congr_left
  intro p _
  by_cases hpk : p.1 == k
  · simp only [Function.comp_apply, if_pos hpk]
  · simp only [Function.comp_apply, if_neg hpk]

lemma dictInsert_fst_of_not_mem {d : List (String × String)} {k : String}
    (v : String) (h : k ∉ d.map Prod.fst) :
    (dictInsert d k v).map Prod.fst = d.map Prod.fst ++ [k] := by
  rw [dictInsert_of_not_mem v h, List.map_append]
  rfl

lemma foldl_dictInsert_nodup_mem (ps : List (String × String)) :
    ∀ d : List (String × String), (d.map Prod.fst).Nodup →
      (((ps.foldl (fun d p => dictInsert d p.1 p.2) d).map Prod.fst).Nodup ∧
       ∀ s, s ∈ (ps.foldl (fun d p => dictInsert d p.1 p.2) d).map Prod.fst ↔
         (s ∈ d.map Prod.fst ∨ s ∈ ps.map Prod.fst)) := by
  induction ps with
  | nil =>
    intro d hd
    refine ⟨hd, fun s => ?_⟩
    simp
  | cons p rest ih =>
    intro d hd
    simp only [List.foldl_cons, List.map_cons, List.mem_cons]
    by_cases hmem : p.1 ∈ d.map Prod.fst
    · have hkeys := dictInsert_fst_of_mem p.2 hmem
      have h2 := ih (dictInsert d p.1 p.2) (by rw [hkeys]; exact hd)
      refine ⟨h2.1, fun s => ?_⟩
      rw [h2.2 s, hkeys]
      constructor
      · rintro (h | h)
        · exact Or.inl h
        · exact Or.inr (Or.inr h)
      · rintro (h | h | h)
        · exact Or.inl h
        · exact Or.inl (h ▸ hmem)
        · exact Or.inr h
    · have hkeys := dictInsert_fst_of_not_mem p.2 hmem
      have hnd : ((dictInsert d p.1 p.2).map Prod.fst).Nodup := by
        rw [hkeys]
        refine List.Nodup.append hd (List.nodup_singleton _) ?_
        intro a ha hb
        rw [List.mem_singleton] at hb
        subst hb
        exact hmem ha
      have h2 := ih (dictInsert d p.1 p.2) hnd
      refine ⟨h2.1, fun s => ?_⟩
      rw [h2.2 s, hkeys]
      simp only [List.mem_append, List.mem_singleton]
      tauto

lemma foldl_dictInsert_eq_append (ps : List (String × String)) :
    ∀ d : List (String × String),
      (∀ s, s ∈ d.map Prod.fst → s ∉ ps.map Prod.fst) →
      (ps.map Prod.fst).Nodup →
      ps.foldl (fun d p => dictInsert d p.1 p.2) d = d ++ ps := by
  induction ps with
  | nil =>
    intro d _ _
    simp
  | cons p rest ih =>
    intro d hdisj hnodup
    simp only [List.foldl_cons]
    have hpm : p.1 ∉ d.map Prod.fst := by
      intro h
      exact hdisj p.1 h (by simp)
    rw [dictInsert_of_not_mem p.2 hpm]
    rw [List.map_cons, List.nodup_cons] at hnodup
    have hdisj2 : ∀ s, s ∈ (d ++ [(p.1, p.2)]).map Prod.fst →
        s ∉ rest.map Prod.fst := by
      intro s hs
      rw [List.map_append, List.mem_append] at hs
      rcases hs with hs | hs
      · intro hr
        exact hdisj s hs (by simp [hr])
      · rw [List.map_singleton, List.mem_singleton] at hs
        subst hs
        exact hnodup.1
    rw [ih (d ++ [(p.1, p.2)]) hdisj2 hnodup.2, List.append_assoc]
    simp

/-- C4: the color lookup `_color_lot` has pairwise distinct keys, its
keys are exactly the surface names appearing in the surfaces table, and
when the table's surface names are distinct every name is mapped to
exactly the color of its own row. -/
theorem c4_color_lot_entries (model : Model) :
    ((PlotData2D.color_lot model).map Prod.fst).Nodup ∧
    (∀ s, s ∈ (PlotData2D.color_lot model).map Prod.fst ↔
      s ∈ model.surfaces.map Prod.fst) ∧
    ((model.surfaces.map Prod.fst).Nodup →
      PlotData2D.color_lot model = model.surfaces) := by
  have h := foldl_dictInsert_nodup_mem model.surfaces [] (by simp)
  refine ⟨h.1, fun s => ?_, fun hnd => ?_⟩
  · rw [PlotData2D.color_lot, dictOfPairs]
    rw [h.2 s]
    simp
  · rw [PlotData2D.color_lot, dictOfPairs,
      foldl_dictInsert_eq_append model.surfaces [] (by simp) hnd]
    simp

/-- C4 witness: the entries theorem applied to the concrete test model,
with the distinct-name hypothesis of the third part discharged. -/
theorem c4_color_lot_entries_witness :
    ((PlotData2D.color_lot testModel).map Prod.fst).Nodup ∧
    PlotData2D.color_lot testModel = testModel.surfaces :=
  ⟨(c4_color_lot_entries testModel).1,
   (c4_color_lot_entries testModel).2.2 (by decide)⟩

/-- A Python string object: its text value together with its object
identity.  Two distinct objects (different `id`) can carry equal text. -/
structure PyStr where
  val : String
  id : Nat
deriving Repr, DecidableEq

/-- The Python `is` operator on strings compares object identity, not
text. -/
def pyIs (a b : PyStr) : Bool := a.id == b.id

/-- The interned string literal `'lithology'` of `plot_block_section`. -/
def lithologyLit : PyStr := ⟨"lithology", 0⟩

/-- The interned string literal `'fault1'` of `plot_block_section`. -/
def fault1Lit : PyStr := ⟨"fault1", 1⟩

/-- Which solution array `plot_block_section` picked for `_block`. -/
inductive BlockSel where
  | lith : BlockSel
  | fault1 : BlockSel
deriving Repr, DecidableEq

/-- Embeds the block-type dispatch of `plot_block_section` (lines
277-287): `if block_type is 'lithology'` picks `solution.lith_block`,
`elif block_type is 'fault1'` picks `solution.fault_blocks`, otherwise
the code asserts membership of the value in the surfaces columns; when
that assert passes the local `_block` is still never assigned, so the
use at line 288 raises `UnboundLocalError`. -/
def PlotData2D.selectBlockType (surfaceColumns : List String)
    (block_type : PyStr) : PyResult BlockSel :=
  if pyIs block_type lithologyLit then .ok .lith
  else if pyIs block_type fault1Lit then .ok .fault1
  else if surfaceColumns.any (fun c => c == block_type.val) then
    .unboundLocalError "_block"
  else
    .assertionError "The value to be plotted has to be in surfaces"

/-- C5: evaluation at the failing input.  A runtime-built string object
equal by value to "lithology" but distinct from the interned literal is
not dispatched to `lith_block`: it falls through to the assert branch,
while the literal object itself is dispatched.  Selection therefore
depends on object identity, contradicting the claim. -/
theorem c5_block_type_identity_dispatch :
    PlotData2D.selectBlockType [] ⟨"lithology", 2⟩ =
      .assertionError "The value to be plotted has to be in surfaces"
    ∧ (⟨"lithology", 2⟩ : PyStr).val = lithologyLit.val
    ∧ PlotData2D.selectBlockType [] lithologyLit = .ok .lith := by
  refine ⟨rfl, rfl, rfl⟩

/-- numpy strided slice `xs[::q]`: the elements at indices
0, q, 2q, ... below the length. -/
def everyNth {α : Type} [Inhabited α] (q : Nat) (xs : List α) : List α :=
  ((List.range xs.length).filter (fun i => i % q == 0)).map
    (fun i => xs.getD i default)

/-- numpy transpose of a rectangular 2D array. -/
def npT {α : Type} [Inhabited α] (m : List (List α)) : List (List α) :=
  (List.range (m.headD []).length).map
    (fun j => m.map (fun row => row.getD j default))

/-- Column `j` of the grid's `values` array (`model.grid.values[:, j]`). -/
def gridColumn (model : Model) (j : Nat) : List ℚ :=
  model.grid.values.map (fun row => row.getD j 0)

/-- The four arrays handed to `plt.quiver` by `plot_gradient`: the two
coordinate arrays and the two gradient-component arrays. -/
structure QuiverArgs where
  Xc : List (List ℚ)
  Yc : List (List ℚ)
  U : List (List ℚ)
  V : List (List ℚ)
deriving Repr, DecidableEq

/-- Embeds `PlotData2D.plot_gradient` (lines 470-503), restricted to the
arrays it passes to `plt.quiver`: for each direction the two gradient
components of the free axes and the two matching coordinate columns are
reshaped to the grid resolution, sliced at `cell_number` on the fixed
axis, strided by `quiver_stepsize` on both free axes, and transposed. -/
def PlotData2D.plot_gradient (model : Model) (gx gy gz : List ℚ)
    (cell_number : Nat) (quiver_stepsize : Nat) (direction : String) :
    PyResult QuiverArgs :=
  let r0 := model.grid.resolution 0
  let r1 := model.grid.resolution 1
  let r2 := model.grid.resolution 2
  let q := quiver_stepsize
  if direction = "y" then
    let sl := fun (g : List ℚ) =>
      npT ((everyNth q (reshape3 r0 r1 r2 g)).map
        (fun plane => everyNth q (plane.getD cell_number [])))
    .ok ⟨sl (gridColumn model 0), sl (gridColumn model 2), sl gx, sl gz⟩
  else if direction = "x" then
    let sl := fun (g : List ℚ) =>
      npT ((everyNth q ((reshape3 r0 r1 r2 g).getD cell_number [])).map
        (fun row => everyNth q row))
    .ok ⟨sl (gridColumn model 1), sl (gridColumn model 2), sl gy, sl gz⟩
  else if direction = "z" then
    let sl := fun (g : List ℚ) =>
      npT ((everyNth q (reshape3 r0 r1 r2 g)).map
        (fun plane => (everyNth q plane).map
          (fun row => row.getD cell_number 0)))
    .ok ⟨sl (gridColumn model 0), sl (gridColumn model 1), sl gx, sl gy⟩
  else
    .attributeError (direction ++ "must be a cartesian direction, i.e. xyz")

lemma count_multiples (q : Nat) (hq : 0 < q) (n : Nat) :
    ((List.range n).filter (fun i => i % q == 0)).length = (n + q - 1) / q := by
  induction n with
  | zero =>
    simp only [List.range_zero, List.filter_nil, List.length_nil]
    rw [Nat.zero_add]
    exact (Nat.div_eq_of_lt (by omega)).symm
  | succ n ih =>
    rw [List.range_succ, List.filter_append, List.length_append, ih]
    obtain ⟨k, r, hr, hn⟩ : ∃ k r, r < q ∧ n = q * k + r :=
      ⟨n / q, n % q, Nat.mod_lt n hq, (Nat.div_add_mod n q).symm⟩
    subst hn
    by_cases hr0 : r = 0
    · subst hr0
      have hmod : (q * k + 0) % q = 0 := by
        simp [Nat.mul_add_mod]
      have h1 : q * k + 0 + q - 1 = q * k + (q - 1) := by omega
      have h2 : q * k + 0 + 1 + q - 1 = q * (k + 1) := by
        have : q * k + 0 + 1 + q - 1 = q * k + q := by omega
        rw [this]; ring
      rw [h1, h2, Nat.mul_add_div hq, Nat.div_eq_of_lt (by omega : q - 1 < q),
        Nat.mul_div_cancel_left _ hq]
      simp [List.filter_cons, hmod]
    · have hmod : (q * k + r) % q = r := by
        rw [Nat.mul_add_mod, Nat.mod_eq_of_lt hr]
      have h1 : q * k + r + q - 1 = q * (k + 1) + (r - 1) := by
        have : q * k + r + q - 1 = q * k + q + (r - 1) := by omega
        rw [this]; ring_nf
      have h2 : q * k + r + 1 + q - 1 = q * (k + 1) + r := by
        have : q * k + r + 1 + q - 1 = q * k + q + r := by omega
        rw [this]; ring_nf
      rw [h1, h2, Nat.mul_add_div hq, Nat.mul_add_div hq,
        Nat.div_eq_of_lt (by omega : r - 1 < q), Nat.div_eq_of_lt hr]
      simp [List.filter_cons, hmod, hr0]

lemma length_everyNth {α : Type} [Inhabited α] {q : Nat} (hq : 0 < q)
    (xs : List α) : (everyNth q xs).length = (xs.length + q - 1) / q := by
  rw [everyNth, List.length_map, count_multiples q hq]

lemma everyNth_subset {α : Type} [Inhabited α] (q : Nat) (xs : List α) :
    ∀ y ∈ everyNth q xs, y ∈ xs := by
  intro y hy
  rw [everyNth, List.mem_map] at hy
  obtain ⟨i, hi, rfl⟩ := hy
  rw [List.mem_filter] at hi
  exact getD_mem_of_lt _ _ _ (List.mem_range.mp hi.1)

lemma headD_mem {α : Type} {m : List α} (d : α) (h : m ≠ []) :
    m.headD d ∈ m := by
  cases m with
  | nil => exact absurd rfl h
  | cons a l => simp [List.headD]

/-- The 2D array `M` has `a` rows, each of `b` entries. -/
def shape2Is {α : Type} (M : List (List α)) (a b : Nat) : Prop :=
  M.length = a ∧ ∀ row ∈ M, row.length = b

lemma npT_shape {α : Type} [Inhabited α] {m : List (List α)} {R C : Nat}
    (hR : m.length = R) (hC : ∀ row ∈ m, row.length = C) (hR0 : 0 < R) :
    shape2Is (npT m) C R := by
  have hne : m ≠ [] := by
    intro h
    rw [h] at hR
    simp at hR
    omega
  constructor
  · rw [npT, List.length_map, List.length_range]
    exact hC _ (headD_mem [] hne)
  · intro col hcol
    rw [npT, List.mem_map] at hcol
    obtain ⟨j, _, rfl⟩ := hcol
    rw [List.length_map, hR]

lemma ceil_div_pos {n q : Nat} (hq : 0 < q) (hn : 0 < n) :
    0 < (n + q - 1) / q :=
  (Nat.le_div_iff_mul_le hq).mpr (by omega)

lemma sliceY_shape {q cell r0 r1 r2 : Nat} (hq : 0 < q) (hr0 : 0 < r0)
    (hcell : cell < r1) {g : List ℚ} (hg : r0 * (r1 * r2) ≤ g.length) :
    shape2Is (npT ((everyNth q (reshape3 r0 r1 r2 g)).map
      (fun plane => everyNth q (plane.getD cell []))))
      ((r2 + q - 1) / q) ((r0 + q - 1) / q) := by
  have hAlen : (reshape3 r0 r1 r2 g).length = r0 := reshape3_length r0 r1 r2 g
  have hBlen : ((everyNth q (reshape3 r0 r1 r2 g)).map
      (fun plane => everyNth q (plane.getD cell []))).length =
      (r0 + q - 1) / q := by
    rw [List.length_map, length_everyNth hq, hAlen]
  have hBrows : ∀ row ∈ (everyNth q (reshape3 r0 r1 r2 g)).map
      (fun plane => everyNth q (plane.getD cell [])),
      row.length = (r2 + q - 1) / q := by
    intro row hrow
    rw [List.mem_map] at hrow
    obtain ⟨plane, hplane, rfl⟩ := hrow
    have hplaneA : plane ∈ reshape3 r0 r1 r2 g :=
      everyNth_subset q _ plane hplane
    have hplen : plane.length = r1 :=
      reshape3_plane_length r0 r1 r2 g plane hplaneA
    have hrowmem : plane.getD cell [] ∈ plane :=
      getD_mem_of_lt _ _ _ (by rw [hplen]; exact hcell)
    have hrlen : (plane.getD cell []).length = r2 :=
      reshape3_row_length hg plane hplaneA _ hrowmem
    rw [length_everyNth hq, hrlen]
  exact npT_shape hBlen hBrows (ceil_div_pos hq hr0)

lemma sliceX_shape {q cell r0 r1 r2 : Nat} (hq : 0 < q) (hr1 : 0 < r1)
    (hcell : cell < r0) {g : List ℚ} (hg : r0 * (r1 * r2) ≤ g.length) :
    shape2Is (npT ((everyNth q ((reshape3 r0 r1 r2 g).getD cell [])).map
      (fun row => everyNth q row)))
      ((r2 + q - 1) / q) ((r1 + q - 1) / q) := by
  have hAlen : (reshape3 r0 r1 r2 g).length = r0 := reshape3_length r0 r1 r2 g
  have hplaneA : (reshape3 r0 r1 r2 g).getD cell [] ∈ reshape3 r0 r1 r2 g :=
    getD_mem_of_lt _ _ _ (by rw [hAlen]; exact hcell)
  have hplen : ((reshape3 r0 r1 r2 g).getD cell []).length = r1 :=
    reshape3_plane_length r0 r1 r2 g _ hplaneA
  have hBlen : ((everyNth q ((reshape3 r0 r1 r2 g).getD cell [])).map
      (fun row => everyNth q row)).length = (r1 + q - 1) / q := by
    rw [List.length_map, length_everyNth hq, hplen]
  have hBrows : ∀ row ∈ (everyNth q ((reshape3 r0 r1 r2 g).getD cell [])).map
      (fun row => everyNth q row), row.length = (r2 + q - 1) / q := by
    intro row hrow
    rw [List.mem_map] at hrow
    obtain ⟨row0, hrow0, rfl⟩ := hrow
    have hmem : row0 ∈ (reshape3 r0 r1 r2 g).getD cell [] :=
      everyNth_subset _ _ _ hrow0
    have hrlen : row0.length = r2 := reshape3_row_length hg _ hplaneA _ hmem
    rw [length_everyNth hq, hrlen]
  exact npT_shape hBlen hBrows (ceil_div_pos hq hr1)

lemma sliceZ_shape {q cell r0 r1 r2 : Nat} (hq : 0 < q) (hr0 : 0 < r0)
    {g : List ℚ} :
    shape2Is (npT ((everyNth q (reshape3 r0 r1 r2 g)).map
      (fun plane => (everyNth q plane).map (fun row => row.getD cell 0))))
      ((r1 + q - 1) / q) ((r0 + q - 1) / q) := by
  have hAlen : (reshape3 r0 r1 r2 g).length = r0 := reshape3_length r0 r1 r2 g
  have hBlen : ((everyNth q (reshape3 r0 r1 r2 g)).map
      (fun plane => (everyNth q plane).map (fun row => row.getD cell 0))).length
      = (r0 + q - 1) / q := by
    rw [List.length_map, length_everyNth hq, hAlen]
  have hBrows : ∀ row ∈ (everyNth q (reshape3 r0 r1 r2 g)).map
      (fun plane => (everyNth q plane).map (fun row => row.getD cell 0)),
      row.length = (r1 + q - 1) / q := by
    intro row hrow
    rw [List.mem_map] at hrow
    obtain ⟨plane, hplane, rfl⟩ := hrow
    have hplen : plane.length = r1 := reshape3_plane_length r0 r1 r2 g plane
      (everyNth_subset q _ plane hplane)
    rw [List.length_map, length_everyNth hq, hplen]
  exact npT_shape hBlen hBrows (ceil_div_pos hq hr0)

/-- C6: for each valid direction with an in-range cell number,
`plot_gradient` quivers the gradient components of the two free axes
(gx and gz for "y", gy and gz for "x", gx and gy for "z") together with
the matching coordinate columns, ignores the third component entirely
(replacing it changes nothing), and after the stride every plotted array
has ceil(R_free2/stride) rows of ceil(R_free1/stride) entries each. -/
theorem c6_plot_gradient_slices (model : Model) (gx gy gz : List ℚ)
    (cell q : Nat) (hq : 0 < q)
    (hr0 : 0 < model.grid.resolution 0)
    (hr1 : 0 < model.grid.resolution 1)
    (_hr2 : 0 < model.grid.resolution 2)
    (hvals : model.grid.values.length = model.grid.resolution 0 *
      model.grid.resolution 1 * model.grid.resolution 2)
    (hgx : gx.length = model.grid.resolution 0 * model.grid.resolution 1 *
      model.grid.resolution 2)
    (hgy : gy.length = model.grid.resolution 0 * model.grid.resolution 1 *
      model.grid.resolution 2)
    (hgz : gz.length = model.grid.resolution 0 * model.grid.resolution 1 *
      model.grid.resolution 2) :
    (cell < model.grid.resolution 1 →
      ∃ qa, PlotData2D.plot_gradient model gx gy gz cell q "y" = .ok qa ∧
        (∀ g2 : List ℚ, PlotData2D.plot_gradient model gx g2 gz cell q "y" =
          PlotData2D.plot_gradient model gx gy gz cell q "y") ∧
        shape2Is qa.Xc ((model.grid.resolution 2 + q - 1) / q)
          ((model.grid.resolution 0 + q - 1) / q) ∧
        shape2Is qa.Yc ((model.grid.resolution 2 + q - 1) / q)
          ((model.grid.resolution 0 + q - 1) / q) ∧
        shape2Is qa.U ((model.grid.resolution 2 + q - 1) / q)
          ((model.grid.resolution 0 + q - 1) / q) ∧
        shape2Is qa.V ((model.grid.resolution 2 + q - 1) / q)
          ((model.grid.resolution 0 + q - 1) / q)) ∧
    (cell < model.grid.resolution 0 →
      ∃ qa, PlotData2D.plot_gradient model gx gy gz cell q "x" = .ok qa ∧
        (∀ g2 : List ℚ, PlotData2D.plot_gradient model g2 gy gz cell q "x" =
          PlotData2D.plot_gradient model gx gy gz cell q "x") ∧
        shape2Is qa.Xc ((model.grid.resolution 2 + q - 1) / q)
          ((model.grid.resolution 1 + q - 1) / q) ∧
        shape2Is qa.Yc ((model.grid.resolution 2 + q - 1) / q)
          ((model.grid.resolution 1 + q - 1) / q) ∧
        shape2Is qa.U ((model.grid.resolution 2 + q - 1) / q)
          ((model.grid.resolution 1 + q - 1) / q) ∧
        shape2Is qa.V ((model.grid.resolution 2 + q - 1) / q)
          ((model.grid.resolution 1 + q - 1) / q)) ∧
    (cell < model.grid.resolution 2 →
      ∃ qa, PlotData2D.plot_gradient model gx gy gz cell q "z" = .ok qa ∧
        (∀ g2 : List ℚ, PlotData2D.plot_gradient model gx gy g2 cell q "z" =
          PlotData2D.plot_gradient model gx gy gz cell q "z") ∧
        shape2Is qa.Xc ((model.grid.resolution 1 + q - 1) / q)
          ((model.grid.resolution 0 + q - 1) / q) ∧
        shape2Is qa.Yc ((model.grid.resolution 1 + q - 1) / q)
          ((model.grid.resolution 0 + q - 1) / q) ∧
        shape2Is qa.U ((model.grid.resolution 1 + q - 1) / q)
          ((model.grid.resolution 0 + q - 1) / q) ∧
        shape2Is qa.V ((model.grid.resolution 1 + q - 1) / q)
          ((model.grid.resolution 0 + q - 1) / q)) := by
  have hcol : ∀ j : Nat, model.grid.resolution 0 * (model.grid.resolution 1 *
      model.grid.resolution 2) ≤ (gridColumn model j).length := fun j =>
    le_of_eq (by rw [← Nat.mul_assoc, ← hvals, gridColumn, List.length_map])
  have hgx2 : model.grid.resolution 0 * (model.grid.resolution 1 *
      model.grid.resolution 2) ≤ gx.length :=
    le_of_eq (by rw [← Nat.mul_assoc, ← hgx])
  have hgy2 : model.grid.resolution 0 * (model.grid.resolution 1 *
      model.grid.resolution 2) ≤ gy.length :=
    le_of_eq (by rw [← Nat.mul_assoc, ← hgy])
  have hgz2 : model.grid.resolution 0 * (model.grid.resolution 1 *
      model.grid.resolution 2) ≤ gz.length :=
    le_of_eq (by rw [← Nat.mul_assoc, ← hgz])
  refine ⟨fun hcell => ?_, fun hcell => ?_, fun hcell => ?_⟩
  · refine ⟨_, rfl, fun g2 => rfl, ?_, ?_, ?_, ?_⟩
    · exact sliceY_shape hq hr0 hcell (hcol 0)
    · exact sliceY_shape hq hr0 hcell (hcol 2)
    · exact sliceY_shape hq hr0 hcell hgx2
    · exact sliceY_shape hq hr0 hcell hgz2
  · refine ⟨_, rfl, fun g2 => rfl, ?_, ?_, ?_, ?_⟩
    · exact sliceX_shape hq hr1 hcell (hcol 1)
    · exact sliceX_shape hq hr1 hcell (hcol 2)
    · exact sliceX_shape hq hr1 hcell hgy2
    · exact sliceX_shape hq hr1 hcell hgz2
  · refine ⟨_, rfl, fun g2 => rfl, ?_, ?_, ?_, ?_⟩
    · exact sliceZ_shape hq hr0
    · exact sliceZ_shape hq hr0
    · exact sliceZ_shape hq hr0
    · exact sliceZ_shape hq hr0

/-- A minimal concrete model with nonempty grid values, used to witness
the gradient theorem. -/
def gradModel : Model where
  grid := { resolution := ![1, 1, 1], extent := ![0, 1, 0, 1, 0, 1],
            values := [[0, 0, 0]] }
  surfaces := []
  surface_points := []
  orientations := []
  solutions := ⟨[], [], []⟩

/-- C6 witness: the gradient theorem applied to a concrete 1x1x1 model,
direction "y", cell 0, stride 1. -/
theorem c6_plot_gradient_slices_witness :
    ∃ qa, PlotData2D.plot_gradient gradModel [0] [0] [0] 0 1 "y" = .ok qa ∧
      (∀ g2 : List ℚ, PlotData2D.plot_gradient gradModel [0] g2 [0] 0 1 "y" =
        PlotData2D.plot_gradient gradModel [0] [0] [0] 0 1 "y") ∧
      shape2Is qa.Xc ((gradModel.grid.resolution 2 + 1 - 1) / 1)
        ((gradModel.grid.resolution 0 + 1 - 1) / 1) ∧
      shape2Is qa.Yc ((gradModel.grid.resolution 2 + 1 - 1) / 1)
        ((gradModel.grid.resolution 0 + 1 - 1) / 1) ∧
      shape2Is qa.U ((gradModel.grid.resolution 2 + 1 - 1) / 1)
        ((gradModel.grid.resolution 0 + 1 - 1) / 1) ∧
      shape2Is qa.V ((gradModel.grid.resolution 2 + 1 - 1) / 1)
        ((gradModel.grid.resolution 0 + 1 - 1) / 1) :=
  (c6_plot_gradient_slices gradModel [0] [0] [0] 0 1 (by decide) (by decide)
    (by decide) (by decide) (by decide) (by decide) (by decide)
    (by decide)).1 (by decide)

/-- The projection parameters `plot_topo_g` computes per direction
(lines 380-409): the two centroid component indices, the extent spans
and minima of the two plotted axes, and their resolutions.  `dim` is
the length of the centroid vectors (2 or 3). -/
structure TopoParams where
  c1 : Nat
  c2 : Nat
  e1 : ℚ
  e2 : ℚ
  d1 : ℚ
  d2 : ℚ
  r1 : Nat
  r2 : Nat
deriving Repr, DecidableEq

/-- Embeds the parameter selection of `plot_topo_g`.  With an invalid
direction none of the locals is assigned, and their first later use
raises `UnboundLocalError`. -/
def PlotData2D.topo_params (g : Grid) (direction : String) (dim : Nat) :
    PyResult TopoParams :=
  if direction = "y" then
    let cs : Nat × Nat := if dim = 2 then (0, 1) else (0, 2)
    .ok ⟨cs.1, cs.2, g.extent 1 - g.extent 0, g.extent 5 - g.extent 4,
      g.extent 0, g.extent 4, g.resolution 0, g.resolution 2⟩
  else if direction = "x" then
    let cs : Nat × Nat := if dim = 2 then (0, 1) else (1, 2)
    .ok ⟨cs.1, cs.2, g.extent 3 - g.extent 2, g.extent 5 - g.extent 4,
      g.extent 2, g.extent 4, g.resolution 1, g.resolution 2⟩
  else if direction = "z" then
    .ok ⟨0, 1, g.extent 1 - g.extent 0, g.extent 3 - g.extent 2,
      g.extent 0, g.extent 2, g.resolution 0, g.resolution 1⟩
  else
    .unboundLocalError "c1"

/-- The point at which `plot_topo_g` draws a node with centroid `cent`
(lines 445-448): `centroids[node][c1] * e1 / r1 + d1` and likewise for
the second axis. -/
def PlotData2D.topo_node_point (g : Grid) (direction : String) (dim : Nat)
    (cent : Nat → ℚ) : PyResult (ℚ × ℚ) :=
  match PlotData2D.topo_params g direction dim with
  | .ok p => .ok (cent p.c1 * p.e1 / (p.r1 : ℚ) + p.d1,
                  cent p.c2 * p.e2 / (p.r2 : ℚ) + p.d2)
  | .attributeError s => .attributeError s
  | .unboundLocalError s => .unboundLocalError s
  | .assertionError s => .assertionError s

/-- The two endpoints of the segment `plot_topo_g` draws for an edge
between centroids `ca` and `cb` (lines 441-442): the same
`* e / r + d` transform applied to both endpoints on both axes. -/
def PlotData2D.topo_edge_points (g : Grid) (direction : String) (dim : Nat)
    (ca cb : Nat → ℚ) : PyResult ((ℚ × ℚ) × (ℚ × ℚ)) :=
  match PlotData2D.topo_params g direction dim with
  | .ok p => .ok ((ca p.c1 * p.e1 / (p.r1 : ℚ) + p.d1,
                   ca p.c2 * p.e2 / (p.r2 : ℚ) + p.d2),
                  (cb p.c1 * p.e1 / (p.r1 : ℚ) + p.d1,
                   cb p.c2 * p.e2 / (p.r2 : ℚ) + p.d2))
  | .attributeError s => .attributeError s
  | .unboundLocalError s => .unboundLocalError s
  | .assertionError s => .assertionError s

/-- C8: for each of the three valid directions, every plotted node and
edge coordinate equals the centroid component of that axis multiplied by
(extent span of the axis divided by its resolution) plus the extent
minimum of the axis; with 2D centroids the components used are 0 and 1. -/
theorem c8_topo_projection (g : Grid) (cent ca cb : Nat → ℚ) :
    (PlotData2D.topo_node_point g "y" 3 cent = .ok
      (cent 0 * ((g.extent 1 - g.extent 0) / (g.resolution 0 : ℚ)) + g.extent 0,
       cent 2 * ((g.extent 5 - g.extent 4) / (g.resolution 2 : ℚ)) + g.extent 4)) ∧
    (PlotData2D.topo_node_point g "x" 3 cent = .ok
      (cent 1 * ((g.extent 3 - g.extent 2) / (g.resolution 1 : ℚ)) + g.extent 2,
       cent 2 * ((g.extent 5 - g.extent 4) / (g.resolution 2 : ℚ)) + g.extent 4)) ∧
    (PlotData2D.topo_node_point g "z" 3 cent = .ok
      (cent 0 * ((g.extent 1 - g.extent 0) / (g.resolution 0 : ℚ)) + g.extent 0,
       cent 1 * ((g.extent 3 - g.extent 2) / (g.resolution 1 : ℚ)) + g.extent 2)) ∧
    (PlotData2D.topo_node_point g "y" 2 cent = .ok
      (cent 0 * ((g.extent 1 - g.extent 0) / (g.resolution 0 : ℚ)) + g.extent 0,
       cent 1 * ((g.extent 5 - g.extent 4) / (g.resolution 2 : ℚ)) + g.extent 4)) ∧
    (PlotData2D.topo_node_point g "x" 2 cent = .ok
      (cent 0 * ((g.extent 3 - g.extent 2) / (g.resolution 1 : ℚ)) + g.extent 2,
       cent 1 * ((g.extent 5 - g.extent 4) / (g.resolution 2 : ℚ)) + g.extent 4)) ∧
    (PlotData2D.topo_edge_points g "y" 3 ca cb = .ok
      ((ca 0 * ((g.extent 1 - g.extent 0) / (g.resolution 0 : ℚ)) + g.extent 0,
        ca 2 * ((g.extent 5 - g.extent 4) / (g.resolution 2 : ℚ)) + g.extent 4),
       (cb 0 * ((g.extent 1 - g.extent 0) / (g.resolution 0 : ℚ)) + g.extent 0,
        cb 2 * ((g.extent 5 - g.extent 4) / (g.resolution 2 : ℚ)) + g.extent 4))) ∧
    (PlotData2D.topo_edge_points g "x" 3 ca cb = .ok
      ((ca 1 * ((g.extent 3 - g.extent 2) / (g.resolution 1 : ℚ)) + g.extent 2,
        ca 2 * ((g.extent 5 - g.extent 4) / (g.resolution 2 : ℚ)) + g.extent 4),
       (cb 1 * ((g.extent 3 - g.extent 2) / (g.resolution 1 : ℚ)) + g.extent 2,
        cb 2 * ((g.extent 5 - g.extent 4) / (g.resolution 2 : ℚ)) + g.extent 4))) ∧
    (PlotData2D.topo_edge_points g "z" 3 ca cb = .ok
      ((ca 0 * ((g.extent 1 - g.extent 0) / (g.resolution 0 : ℚ)) + g.extent 0,
        ca 1 * ((g.extent 3 - g.extent 2) / (g.resolution 1 : ℚ)) + g.extent 2),
       (cb 0 * ((g.extent 1 - g.extent 0) / (g.resolution 0 : ℚ)) + g.extent 0,
        cb 1 * ((g.extent 3 - g.extent 2) / (g.resolution 1 : ℚ)) + g.extent 2))) := by
  refine ⟨?_, ?_, ?_, ?_, ?_, ?_, ?_, ?_⟩ <;>
    simp [PlotData2D.topo_node_point, PlotData2D.topo_edge_points,
      PlotData2D.topo_params, mul_div_assoc]

/-- Embeds `PlotData2D.plot_topography` (lines 228-236).  The section
line from `model.topography._line_in_section` lives outside this module
and is passed in abstractly as `line`; the code then appends four corner
points built from the extent selection `ext` and the first line point.
Only directions "x" and "y" assign `ext`; any other direction reaches
the corner computation with `ext` unbound and raises
`UnboundLocalError`. -/
def PlotData2D.plot_topography (model : Model) (line : List (ℚ × ℚ))
    (cell_number : Nat) (direction : String) : PyResult (List (ℚ × ℚ)) :=
  let _ := cell_number
  if direction = "x" then
    let e0 := model.grid.extent 2
    let e1 := model.grid.extent 3
    let e3 := model.grid.extent 5
    let l01 := (line.headD (0, 0)).2
    .ok (line ++ [(e1, l01), (e1, e3), (e0, e3), (e0, l01)])
  else if direction = "y" then
    let e0 := model.grid.extent 0
    let e1 := model.grid.extent 1
    let e3 := model.grid.extent 5
    let l01 := (line.headD (0, 0)).2
    .ok (line ++ [(e1, l01), (e1, e3), (e0, e3), (e0, l01)])
  else
    .unboundLocalError "ext"

/-- C10: `plot_topography` accepts only "x" and "y": every other
direction (including the otherwise-valid "z") assigns no extent and
fails with an unbound-local error, not an invalid-argument error and
not a rendered plot, while "x" and "y" return normally. -/
theorem c10_plot_topography_only_xy (model : Model) (line : List (ℚ × ℚ))
    (cn : Nat) :
    (∀ direction : String, direction ≠ "x" → direction ≠ "y" →
      PlotData2D.plot_topography model line cn direction =
        .unboundLocalError "ext") ∧
    (PlotData2D.plot_topography model line cn "x").isOk = true ∧
    (PlotData2D.plot_topography model line cn "y").isOk = true := by
  refine ⟨fun direction hx hy => ?_, rfl, rfl⟩
  simp [PlotData2D.plot_topography, hx, hy]

/-- C10 witness: the theorem applied at the concrete direction "z". -/
theorem c10_plot_topography_only_xy_witness :
    PlotData2D.plot_topography testModel [] 0 "z" =
      .unboundLocalError "ext" :=
  (c10_plot_topography_only_xy testModel [] 0).1 "z" (by decide) (by decide)

/-- Embeds the data-preparation part of `PlotData2D.plot_data`
(lines 101-112): labels and extent from `_slice`, aspect ratio from the
extent, divided by the vertical exaggeration for directions "x" and
"y". -/
def PlotData2D.plot_data (model : Model) (direction : String) (ve : ℚ) :
    PyResult (String × String × String × String × List ℚ × ℚ) :=
  match PlotData2D._slice model direction 25 with
  | .ok d =>
      let aspect := (d.extent_val.getD 1 0 - d.extent_val.getD 0 0) /
        (d.extent_val.getD 3 0 - d.extent_val.getD 2 0)
      let aspect := if direction = "x" ∨ direction = "y" then aspect / ve
        else aspect
      .ok (d.x, d.y, d.Gx, d.Gy, d.extent_val, aspect)
  | .attributeError s => .attributeError s
  | .unboundLocalError s => .unboundLocalError s
  | .assertionError s => .assertionError s

/-- The attributes `PlotData2D.__init__` stores on the instance: the
model reference, the color lookup `_color_lot`, and the colormap
colors. -/
structure PState where
  model : Model
  color_lot : List (String × String)
  cmap : List String

/-- Embeds `PlotData2D.__init__` (lines 59-67): keep the model
reference, build `_color_lot` from the surfaces table, and collect the
colormap colors. -/
def PlotData2D.init (model : Model) : PState where
  model := model
  color_lot := dictOfPairs model.surfaces
  cmap := model.surfaces.map Prod.snd

/-- One public operation of `PlotData2D`, with its arguments. -/
inductive Op where
  | slice : String → Nat → Op
  | slice2D : Nat → String → Op
  | plot_data : String → ℚ → Op
  | extract_fault_lines : Nat → String → Op
  | plot_block_section : List ℚ → String → Nat → Op
  | plot_scalar_field : Nat → String → Nat → Op
  | plot_gradient : List ℚ → List ℚ → List ℚ → Nat → Nat → String → Op
  | plot_topography : List (ℚ × ℚ) → Nat → String → Op
  | select_block_type : List String → PyStr → Op

/-- What an operation hands to the plotting library or returns (the
drawing itself happens in the external library and has no state here). -/
inductive Out where
  | sliceOut : PyResult SliceDescr → Out
  | slice2DOut : PyResult ((NpIndex × NpIndex × NpIndex) × List ℚ) → Out
  | dataOut : PyResult (String × String × String × String × List ℚ × ℚ) → Out
  | arrayOut : PyResult (List (List ℚ)) → Out
  | quiverOut : PyResult QuiverArgs → Out
  | topoOut : PyResult (List (ℚ × ℚ)) → Out
  | selOut : PyResult BlockSel → Out

/-- Runs one method on the instance state.  Every method computes its
result from `self.model` and the construction-time attributes; none of
them assigns an instance attribute or a model field, so the state comes
back as it went in. -/
def PlotData2D.runOp (s : PState) : Op → Out × PState
  | .slice direction cn =>
      (.sliceOut (PlotData2D._slice s.model direction cn), s)
  | .slice2D cn direction =>
      (.slice2DOut (PlotData2D._slice2D s.model cn direction), s)
  | .plot_data direction ve =>
      (.dataOut (PlotData2D.plot_data s.model direction ve), s)
  | .extract_fault_lines cn direction =>
      (.slice2DOut (PlotData2D._slice2D s.model cn direction), s)
  | .plot_block_section arr direction cn =>
      (.arrayOut (PlotData2D.plot_block_array s.model arr direction cn), s)
  | .plot_scalar_field series direction cn =>
      (.arrayOut (PlotData2D.plot_block_array s.model
        (s.model.solutions.scalar_field_matrix.getD series [])
        direction cn), s)
  | .plot_gradient gx gy gz cn q direction =>
      (.quiverOut (PlotData2D.plot_gradient s.model gx gy gz cn q
        direction), s)
  | .plot_topography line cn direction =>
      (.topoOut (PlotData2D.plot_topography s.model line cn direction), s)
  | .select_block_type cols bt =>
      (.selOut (PlotData2D.selectBlockType cols bt), s)

/-- C7: no operation of `PlotData2D` mutates the external model: after
every method call the model reference of the instance state — and with
it the grid resolution and extent, the surfaces table, the point and
orientation data, and the solution arrays — is exactly the model from
before the call. -/
theorem c7_no_model_mutation (s : PState) (op : Op) :
    ((PlotData2D.runOp s op).2).model = s.model := by
  cases op <;> rfl

/-- C9: `_color_lot` is built once at construction from the surfaces
table, and no operation of the class changes it: its entries after any
method call are exactly those from before. -/
theorem c9_color_lot_immutable (m : Model) (s : PState) :
    (PlotData2D.init m).color_lot = dictOfPairs m.surfaces ∧
    ∀ op : Op, ((PlotData2D.runOp s op).2).color_lot = s.color_lot := by
  refine ⟨rfl, fun op => ?_⟩
  cases op <;> rfl
